import Mathlib

/-!
Shallow embedding of the flake-checker program (src/src/main.rs) and proofs of
its specification claims.

Modelling conventions:
* Rust `HashMap<String, Node>` is modelled as an association list
  `List (String × Node)`; the list order stands for the map's iteration order
  in one run (arbitrary but fixed within a run).
* Rust `i64` timestamps and day counts are modelled as `Int`; the program never
  approaches the `i64` range in these computations, and the claims speak about
  the mathematical values.
* `Utc::now().timestamp()` is modelled by an explicit parameter
  `now_timestamp : Int` threaded into `MaxAge.run` and `check_flake_lock`.
  The source samples the clock once per inspected node; with a fixed parameter
  the per-node and per-run samplings coincide.
* `chrono::Duration::seconds(diff).num_days()` equals `diff / 86400` with
  Rust `i64` division, i.e. truncation toward zero: modelled by `Int.tdiv`.
* Rust `str::starts_with` is a byte-prefix test; for valid UTF-8 this is the
  character-sequence prefix test, modelled by `List.isPrefixOf` on the
  character data (kernel-computable, unlike `String.startsWith`).
-/

namespace FlakeChecker

/-- Embeds `struct Original` (src/src/main.rs): the origin descriptor of a
dependency, with an optional Git ref. -/
structure Original where
  owner : Option String
  repo : Option String
  node_type : String
  git_ref : Option String
  deriving DecidableEq

/-- Embeds `struct Locked` (src/src/main.rs): the resolved/pinned state of a
dependency, carrying a unix `last_modified` timestamp in seconds. -/
structure Locked where
  last_modified : Int
  nar_hash : String
  owner : Option String
  repo : Option String
  rev : Option String
  node_type : String
  deriving DecidableEq

/-- Embeds `enum Input` (src/src/main.rs): an input edge is a single name or a
list of names. Parsed but never consulted by any check. -/
inductive Input where
  | str : String → Input
  | list : List String → Input
  deriving DecidableEq

/-- Embeds `struct Node` (src/src/main.rs): one dependency-graph entry. -/
structure Node where
  inputs : Option (List (String × Input))
  locked : Option Locked
  original : Option Original
  deriving DecidableEq

/-- Embeds `struct FlakeLock` (src/src/main.rs): the parsed lock file. The
node map is an association list; its order is the map's iteration order. -/
structure FlakeLock where
  nodes : List (String × Node)
  root : String
  version : Nat
  deriving DecidableEq

/-- Embeds `struct Config` (src/src/main.rs). -/
structure Config where
  allowed_refs : List String
  max_days : Int
  deriving DecidableEq

/-- Embeds `enum IssueKind` (src/src/main.rs). -/
inductive IssueKind where
  | Disallowed
  | Outdated
  deriving DecidableEq

/-- Embeds `struct Issue` (src/src/main.rs). -/
structure Issue where
  kind : IssueKind
  message : String
  deriving DecidableEq

/-- Embeds Rust `s.starts_with(pre)`: byte-prefix test, equivalently the
character-sequence prefix test for valid UTF-8. -/
def starts_with (s pre : String) : Bool :=
  pre.data.isPrefixOf s.data

/-- Embeds `fn nixpkgs_deps` (src/src/main.rs lines 155-162): keep exactly the
entries whose key starts with `"nixpkgs"`, values cloned unchanged. -/
def nixpkgs_deps (nodes : List (String × Node)) : List (String × Node) :=
  nodes.filter fun p => starts_with p.1 "nixpkgs"

/-- Embeds `struct Refs` (src/src/main.rs). -/
structure Refs where
  allowed_refs : List String

/-- The message built by `Refs::run`'s `format!` call. -/
def refsMessage (name git_ref : String) : String :=
  "dependency `" ++ name ++ "` has a Git ref of `" ++ git_ref
    ++ "` which is not explicitly allowed"

/-- The body of the `for` loop in `impl Check for Refs` (src/src/main.rs lines
85-101) for one entry `(name, dep)`: the issue pushed for that entry, if any. -/
def Refs.checkNode (allowed_refs : List String) (name : String) (dep : Node) :
    Option Issue :=
  match dep.original with
  | some original =>
    match original.git_ref with
    | some git_ref =>
      if !(allowed_refs.contains git_ref) then
        some { kind := IssueKind.Disallowed, message := refsMessage name git_ref }
      else
        none
    | none => none
  | none => none

/-- Embeds `impl Check for Refs` (src/src/main.rs lines 84-102): iterate over
`nixpkgs_deps`, pushing at most one issue per entry. -/
def Refs.run (self : Refs) (flake_lock : FlakeLock) : List Issue :=
  (nixpkgs_deps flake_lock.nodes).filterMap fun p =>
    Refs.checkNode self.allowed_refs p.1 p.2

/-- Embeds `struct MaxAge` (src/src/main.rs). -/
structure MaxAge where
  max_days : Int

/-- The message built by `MaxAge::run`'s `format!` call. -/
def maxAgeMessage (name : String) (num_days_old max_days : Int) : String :=
  "dependency `" ++ name ++ "` is **" ++ toString num_days_old
    ++ "** days old, which is over the max of **" ++ toString max_days ++ "**"

/-- The body of the `for` loop in `impl Check for MaxAge` (src/src/main.rs
lines 109-130) for one entry `(name, dep)`: `num_days_old` is
`Duration::seconds(now - last_modified).num_days()`, i.e. truncating division
of the second difference by 86400. -/
def MaxAge.checkNode (max_days now_timestamp : Int) (name : String)
    (dep : Node) : Option Issue :=
  match dep.locked with
  | some locked =>
    if Int.tdiv (now_timestamp - locked.last_modified) 86400 > max_days then
      some { kind := IssueKind.Outdated,
             message := maxAgeMessage name
               (Int.tdiv (now_timestamp - locked.last_modified) 86400) max_days }
    else
      none
  | none => none

/-- Embeds `impl Check for MaxAge` (src/src/main.rs lines 108-131). -/
def MaxAge.run (self : MaxAge) (now_timestamp : Int) (flake_lock : FlakeLock) :
    List Issue :=
  (nixpkgs_deps flake_lock.nodes).filterMap fun p =>
    MaxAge.checkNode self.max_days now_timestamp p.1 p.2

/-- Embeds `fn check_flake_lock` (src/src/main.rs lines 139-153): run MaxAge,
then Refs, and append the second result to the first. -/
def check_flake_lock (now_timestamp : Int) (flake_lock : FlakeLock)
    (config : Config) : List Issue :=
  MaxAge.run { max_days := config.max_days } now_timestamp flake_lock
    ++ Refs.run { allowed_refs := config.allowed_refs } flake_lock

/-! ### Concrete fixtures used by witnesses and counterexamples -/

/-- A node pinned at unix time 0, with no origin descriptor. -/
def exOld : Node :=
  { inputs := none,
    locked := some { last_modified := 0, nar_hash := "sha256-AAA",
                     owner := some "NixOS", repo := some "nixpkgs",
                     rev := some "abc123", node_type := "github" },
    original := none }

/-- A node whose origin pins the Git ref `staging`, with no locked descriptor. -/
def exStaging : Node :=
  { inputs := none,
    locked := none,
    original := some { owner := some "NixOS", repo := some "nixpkgs",
                       node_type := "github", git_ref := some "staging" } }

/-- A node whose locked timestamp lies 5 days in the future of time 0. -/
def exFuture : Node :=
  { inputs := none,
    locked := some { last_modified := 432000, nar_hash := "sha256-BBB",
                     owner := none, repo := none, rev := none,
                     node_type := "github" },
    original := none }

/-- A node with no inputs, no locked descriptor and no origin descriptor. -/
def exBare : Node :=
  { inputs := none, locked := none, original := none }

/-- A small lock file with two tracked nodes and one untracked node. -/
def exFlakeLock : FlakeLock :=
  { nodes := [("nixpkgs", exOld), ("nixpkgs-unstable", exStaging),
              ("other-dep", exOld)],
    root := "root", version := 7 }

/-- The configuration of the spec's scenarios. -/
def exConfig : Config :=
  { allowed_refs := ["nixos-23.11"], max_days := 180 }

/-- A lock file whose only node is tracked and future-dated. -/
def futureFlakeLock : FlakeLock :=
  { nodes := [("nixpkgs", exFuture)], root := "root", version := 7 }

/-- A lock file whose only node is tracked and pinned at unix time 0. -/
def dayFlakeLock : FlakeLock :=
  { nodes := [("nixpkgs", exOld)], root := "root", version := 7 }

/-- A configuration allowing a maximum age of one day. -/
def dayConfig : Config :=
  { allowed_refs := [], max_days := 1 }

/-- A lock file with no tracked node. -/
def noTrackedFlakeLock : FlakeLock :=
  { nodes := [("other-dep", exOld), ("crane", exStaging)],
    root := "root", version := 7 }

/-- A node with an origin descriptor that declares no Git ref. -/
def exNoRef : Node :=
  { inputs := none,
    locked := none,
    original := some { owner := some "NixOS", repo := some "nixpkgs",
                       node_type := "github", git_ref := none } }

/-- `exOld` with a nonempty `inputs` field. -/
def exOldInputs : Node :=
  { exOld with inputs := some [("nixpkgs", Input.str "nixpkgs")] }

/-- Two graph entries agreeing on everything the checks consult: the entry
name, the origin descriptor and the locked descriptor. The `inputs` field is
unconstrained. -/
def NodeSameChecked (p q : String × Node) : Prop :=
  p.1 = q.1 ∧ p.2.original = q.2.original ∧ p.2.locked = q.2.locked

/-! ### Claim theorems -/

/-- Claim C3: `nixpkgs_deps` returns exactly the entries of the input mapping
whose key starts with the literal prefix `"nixpkgs"`: a pair is in the result
iff it is in the input and its key has that prefix, with the node value
unchanged. (Purity is inherent: the embedding is a total Lean function of its
input.) -/
theorem nixpkgs_deps_mem_iff (nodes : List (String × Node)) (name : String)
    (node : Node) :
    (name, node) ∈ nixpkgs_deps nodes ↔
      (name, node) ∈ nodes ∧ starts_with name "nixpkgs" = true := by
  simp [nixpkgs_deps, List.mem_filter]

/-- Claim C4: if no node name of the graph starts with `"nixpkgs"`, then
`check_flake_lock` returns the empty issue sequence, for every configuration
and clock value. -/
theorem check_flake_lock_no_tracked (now_timestamp : Int)
    (flake_lock : FlakeLock) (config : Config)
    (h : ∀ p ∈ flake_lock.nodes, starts_with p.1 "nixpkgs" = false) :
    check_flake_lock now_timestamp flake_lock config = [] := by
  have hdeps : nixpkgs_deps flake_lock.nodes = [] := by
    apply List.filter_eq_nil_iff.2
    intro a ha
    simp [h a ha]
  simp [check_flake_lock, MaxAge.run, Refs.run, hdeps]

/-- Witness for C4 at the concrete graph `noTrackedFlakeLock`. -/
theorem check_flake_lock_no_tracked_witness :
    (∀ p ∈ noTrackedFlakeLock.nodes, starts_with p.1 "nixpkgs" = false) ∧
    check_flake_lock 999999 noTrackedFlakeLock exConfig = [] :=
  ⟨by decide, check_flake_lock_no_tracked 999999 noTrackedFlakeLock exConfig (by decide)⟩

/-- Claim C1: for a tracked node whose origin descriptor and `git_ref` are
present, if the ref is not in `allowed_refs` the reference check contributes
exactly one `Disallowed` issue with the exact message text (and that issue
appears in the check's output), and if the ref is in `allowed_refs` the node
contributes no issue. -/
theorem refs_check_correct (allowed_refs : List String)
    (flake_lock : FlakeLock) (name : String) (node : Node) (o : Original)
    (r : String)
    (hmem : (name, node) ∈ nixpkgs_deps flake_lock.nodes)
    (ho : node.original = some o) (hr : o.git_ref = some r) :
    (r ∉ allowed_refs →
      Refs.checkNode allowed_refs name node =
        some { kind := IssueKind.Disallowed,
               message := "dependency `" ++ name ++ "` has a Git ref of `" ++ r
                 ++ "` which is not explicitly allowed" } ∧
      ({ kind := IssueKind.Disallowed,
         message := "dependency `" ++ name ++ "` has a Git ref of `" ++ r
           ++ "` which is not explicitly allowed" } : Issue)
        ∈ Refs.run { allowed_refs := allowed_refs } flake_lock) ∧
    (r ∈ allowed_refs → Refs.checkNode allowed_refs name node = none) := by
  constructor
  · intro hnot
    have hcn : Refs.checkNode allowed_refs name node =
        some { kind := IssueKind.Disallowed, message := refsMessage name r } := by
      simp [Refs.checkNode, ho, hr, hnot]
    refine ⟨by simpa [refsMessage] using hcn, ?_⟩
    exact List.mem_filterMap.2 ⟨(name, node), hmem, by simpa [refsMessage] using hcn⟩
  · intro hmemr
    simp [Refs.checkNode, ho, hr, hmemr]

/-- Witness for C1: the spec's scenario `nixpkgs-unstable` pinned to `staging`
with `allowed_refs = ["nixos-23.11"]`. -/
theorem refs_check_correct_witness :
    ("staging" ∉ ["nixos-23.11"]) ∧
    ({ kind := IssueKind.Disallowed,
       message := "dependency `" ++ "nixpkgs-unstable" ++ "` has a Git ref of `"
         ++ "staging" ++ "` which is not explicitly allowed" } : Issue)
      ∈ Refs.run { allowed_refs := ["nixos-23.11"] } exFlakeLock :=
  ⟨by decide,
   ((refs_check_correct ["nixos-23.11"] exFlakeLock "nixpkgs-unstable" exStaging
       { owner := some "NixOS", repo := some "nixpkgs", node_type := "github",
         git_ref := some "staging" }
       "staging" (by decide) rfl rfl).1 (by decide)).2⟩

/-- Claim C2: for a tracked node whose locked descriptor is present, with
`age_days` the truncating division of `now - last_modified` by 86400, the
max-age check contributes exactly one `Outdated` issue with the exact message
text iff `age_days > max_days` (and that issue appears in the check's output);
for `age_days ≤ max_days` the node contributes no issue. -/
theorem max_age_check_correct (max_days now_timestamp : Int)
    (flake_lock : FlakeLock) (name : String) (node : Node) (locked : Locked)
    (hmem : (name, node) ∈ nixpkgs_deps flake_lock.nodes)
    (hl : node.locked = some locked) :
    (Int.tdiv (now_timestamp - locked.last_modified) 86400 > max_days →
      MaxAge.checkNode max_days now_timestamp name node =
        some { kind := IssueKind.Outdated,
               message := "dependency `" ++ name ++ "` is **"
                 ++ toString (Int.tdiv (now_timestamp - locked.last_modified) 86400)
                 ++ "** days old, which is over the max of **"
                 ++ toString max_days ++ "**" } ∧
      ({ kind := IssueKind.Outdated,
         message := "dependency `" ++ name ++ "` is **"
           ++ toString (Int.tdiv (now_timestamp - locked.last_modified) 86400)
           ++ "** days old, which is over the max of **"
           ++ toString max_days ++ "**" } : Issue)
        ∈ MaxAge.run { max_days := max_days } now_timestamp flake_lock) ∧
    (Int.tdiv (now_timestamp - locked.last_modified) 86400 ≤ max_days →
      MaxAge.checkNode max_days now_timestamp name node = none) := by
  constructor
  · intro hgt
    have hcn : MaxAge.checkNode max_days now_timestamp name node =
        some { kind := IssueKind.Outdated,
               message := maxAgeMessage name
                 (Int.tdiv (now_timestamp - locked.last_modified) 86400) max_days } := by
      simp [MaxAge.checkNode, hl, hgt]
    refine ⟨by simpa [maxAgeMessage] using hcn, ?_⟩
    exact List.mem_filterMap.2 ⟨(name, node), hmem, by simpa [maxAgeMessage] using hcn⟩
  · intro hle
    simp [MaxAge.checkNode, hl, not_lt.2 hle]

/-- Witness for C2: the spec's scenario of a node 200 days old against a
maximum of 180. -/
theorem max_age_check_correct_witness :
    Int.tdiv ((86400 * 200 + 5 : Int) - 0) 86400 > (180 : Int) ∧
    ({ kind := IssueKind.Outdated,
       message := "dependency `" ++ "nixpkgs" ++ "` is **"
         ++ toString (Int.tdiv ((86400 * 200 + 5 : Int) - 0) 86400)
         ++ "** days old, which is over the max of **"
         ++ toString (180 : Int) ++ "**" } : Issue)
      ∈ MaxAge.run { max_days := 180 } (86400 * 200 + 5) exFlakeLock :=
  ⟨by decide,
   ((max_age_check_correct 180 (86400 * 200 + 5) exFlakeLock "nixpkgs" exOld
       { last_modified := 0, nar_hash := "sha256-AAA", owner := some "NixOS",
         repo := some "nixpkgs", rev := some "abc123", node_type := "github" }
       (by decide) rfl).1 (by decide)).2⟩

/-- Claim C6: partially-absent node data is silently skipped: a node without
an origin descriptor, or with an origin but no `git_ref`, contributes no issue
to the reference check, and a node without a locked descriptor contributes no
issue to the max-age check. (Both checks are total functions in the embedding,
so they always return normally.) -/
theorem checks_skip_absent (allowed_refs : List String)
    (max_days now_timestamp : Int) (name : String) (node : Node) :
    (node.original = none → Refs.checkNode allowed_refs name node = none) ∧
    (∀ o : Original, node.original = some o → o.git_ref = none →
      Refs.checkNode allowed_refs name node = none) ∧
    (node.locked = none → MaxAge.checkNode max_days now_timestamp name node = none) := by
  refine ⟨?_, ?_, ?_⟩
  · intro h
    simp [Refs.checkNode, h]
  · intro o ho hr
    simp [Refs.checkNode, ho, hr]
  · intro h
    simp [MaxAge.checkNode, h]

/-- Witness for C6 on three concrete nodes: no origin, origin without a ref,
and no locked descriptor. -/
theorem checks_skip_absent_witness :
    Refs.checkNode ["nixos-23.11"] "nixpkgs" exOld = none ∧
    Refs.checkNode ["nixos-23.11"] "nixpkgs" exNoRef = none ∧
    MaxAge.checkNode 180 0 "nixpkgs-unstable" exStaging = none :=
  ⟨(checks_skip_absent ["nixos-23.11"] 180 0 "nixpkgs" exOld).1 rfl,
   (checks_skip_absent ["nixos-23.11"] 180 0 "nixpkgs" exNoRef).2.1
     { owner := some "NixOS", repo := some "nixpkgs", node_type := "github",
       git_ref := none } rfl rfl,
   (checks_skip_absent ["nixos-23.11"] 180 0 "nixpkgs-unstable" exStaging).2.2 rfl⟩

/-! ### Shared helper lemmas -/

/-- Any issue the max-age loop body produces has kind `Outdated`. -/
theorem maxAge_checkNode_kind {max_days now_timestamp : Int} {name : String}
    {dep : Node} {issue : Issue}
    (h : MaxAge.checkNode max_days now_timestamp name dep = some issue) :
    issue.kind = IssueKind.Outdated := by
  unfold MaxAge.checkNode at h
  split at h
  · split at h
    · rw [← Option.some.inj h]
    · exact absurd h (by simp)
  · exact absurd h (by simp)

/-- Any issue the reference loop body produces has kind `Disallowed`. -/
theorem refs_checkNode_kind {allowed_refs : List String} {name : String}
    {dep : Node} {issue : Issue}
    (h : Refs.checkNode allowed_refs name dep = some issue) :
    issue.kind = IssueKind.Disallowed := by
  unfold Refs.checkNode at h
  split at h
  · split at h
    · split at h
      · rw [← Option.some.inj h]
      · exact absurd h (by simp)
    · exact absurd h (by simp)
  · exact absurd h (by simp)

/-- Every issue in the max-age check's output has kind `Outdated`. -/
theorem maxAge_run_kinds (self : MaxAge) (now_timestamp : Int)
    (flake_lock : FlakeLock) :
    ∀ issue ∈ MaxAge.run self now_timestamp flake_lock,
      issue.kind = IssueKind.Outdated := by
  intro issue hmem
  simp only [MaxAge.run] at hmem
  obtain ⟨p, _, hsome⟩ := List.mem_filterMap.1 hmem
  exact maxAge_checkNode_kind hsome

/-- Every issue in the reference check's output has kind `Disallowed`. -/
theorem refs_run_kinds (self : Refs) (flake_lock : FlakeLock) :
    ∀ issue ∈ Refs.run self flake_lock, issue.kind = IssueKind.Disallowed := by
  intro issue hmem
  simp only [Refs.run] at hmem
  obtain ⟨p, _, hsome⟩ := List.mem_filterMap.1 hmem
  exact refs_checkNode_kind hsome

/-- In a concatenation of an all-`Outdated` list and an all-`Disallowed` list,
every `Outdated` position precedes every `Disallowed` position. -/
theorem append_kind_order {A B : List Issue}
    (hA : ∀ issue ∈ A, issue.kind = IssueKind.Outdated)
    (hB : ∀ issue ∈ B, issue.kind = IssueKind.Disallowed) :
    ∀ i j : Fin (A ++ B).length,
      ((A ++ B).get i).kind = IssueKind.Outdated →
      ((A ++ B).get j).kind = IssueKind.Disallowed → (i : Nat) < (j : Nat) := by
  intro i j hi hj
  have hiA : (i : Nat) < A.length := by
    rcases Nat.lt_or_ge (i : Nat) A.length with h | h
    · exact h
    · exfalso
      have hlt : (i : Nat) - A.length < B.length := by
        have := i.isLt
        simp only [List.length_append] at this
        omega
      have hget : (A ++ B).get i = B.get ⟨(i : Nat) - A.length, hlt⟩ := by
        apply List.get_append_right
        omega
      have hmem : (A ++ B).get i ∈ B := by
        rw [hget]
        exact B.get_mem _ _
      have hkind := hB _ hmem
      rw [hi] at hkind
      exact IssueKind.noConfusion hkind
  have hjB : A.length ≤ (j : Nat) := by
    rcases Nat.lt_or_ge (j : Nat) A.length with h | h
    · exfalso
      have hget : (A ++ B).get j = A.get ⟨(j : Nat), h⟩ :=
        List.get_append_left A B h
      have hmem : (A ++ B).get j ∈ A := by
        rw [hget]
        exact A.get_mem _ _
      have hkind := hA _ hmem
      rw [hj] at hkind
      exact IssueKind.noConfusion hkind
    · exact h
  omega

/-- `List.filter` preserves `Forall₂` when the predicate respects the
relation. -/
theorem forall2_filter_eq {α : Type} {R : α → α → Prop} {pr : α → Bool}
    (hp : ∀ a b, R a b → pr a = pr b) :
    ∀ {l1 l2 : List α}, List.Forall₂ R l1 l2 →
      List.Forall₂ R (l1.filter pr) (l2.filter pr) := by
  intro l1 l2 h
  induction h with
  | nil => exact List.Forall₂.nil
  | @cons a b t1 t2 hab htail ih =>
    rw [List.filter_cons, List.filter_cons, ← hp a b hab]
    by_cases hpa : pr a
    · simpa [hpa] using List.Forall₂.cons hab ih
    · simpa [hpa] using ih

/-- `List.filterMap` yields equal results on `Forall₂`-related lists when the
function respects the relation. -/
theorem forall2_filterMap_eq {α β : Type} {R : α → α → Prop}
    {f : α → Option β} (hf : ∀ a b, R a b → f a = f b) :
    ∀ {l1 l2 : List α}, List.Forall₂ R l1 l2 →
      l1.filterMap f = l2.filterMap f := by
  intro l1 l2 h
  induction h with
  | nil => rfl
  | @cons a b t1 t2 hab htail ih =>
    rw [List.filterMap_cons, List.filterMap_cons, hf a b hab, ih]

/-- Claim C5: the runner's output is the max-age check's issues followed by
the reference check's issues, each in the order produced; consequently every
`Outdated` issue precedes every `Disallowed` issue in the output. -/
theorem check_flake_lock_order (now_timestamp : Int) (flake_lock : FlakeLock)
    (config : Config) :
    check_flake_lock now_timestamp flake_lock config =
      MaxAge.run { max_days := config.max_days } now_timestamp flake_lock
        ++ Refs.run { allowed_refs := config.allowed_refs } flake_lock ∧
    (∀ issue ∈ MaxAge.run { max_days := config.max_days } now_timestamp flake_lock,
      issue.kind = IssueKind.Outdated) ∧
    (∀ issue ∈ Refs.run { allowed_refs := config.allowed_refs } flake_lock,
      issue.kind = IssueKind.Disallowed) ∧
    ∀ i j : Fin (check_flake_lock now_timestamp flake_lock config).length,
      ((check_flake_lock now_timestamp flake_lock config).get i).kind = IssueKind.Outdated →
      ((check_flake_lock now_timestamp flake_lock config).get j).kind = IssueKind.Disallowed →
      (i : Nat) < (j : Nat) :=
  ⟨rfl, maxAge_run_kinds _ _ _, refs_run_kinds _ _,
   append_kind_order (maxAge_run_kinds _ _ _) (refs_run_kinds _ _)⟩

/-- Witness for C5: the concatenation shape at a concrete run. -/
theorem check_flake_lock_order_witness :
    check_flake_lock (86400 * 200 + 5) exFlakeLock exConfig =
      MaxAge.run { max_days := 180 } (86400 * 200 + 5) exFlakeLock
        ++ Refs.run { allowed_refs := ["nixos-23.11"] } exFlakeLock :=
  (check_flake_lock_order (86400 * 200 + 5) exFlakeLock exConfig).1

/-- Claim C7 counterexample: a tracked node whose locked timestamp lies five
days in the future of the run's clock. With a negative `max_days` (here -10)
the truncated day count -5 does pass the `>` comparison, and the max-age check
emits an issue, contradicting the claim that a future timestamp never yields
an issue. -/
theorem max_age_future_emits :
    ((0 : Int) - 432000 < 0) ∧
    MaxAge.run { max_days := -10 } 0 futureFlakeLock =
      [{ kind := IssueKind.Outdated,
         message := "dependency `nixpkgs` is **-5** days old, which is over the max of **-10**" }] := by
  decide

/-- Claim C7 (amended): for a node with a locked timestamp in the future, if
the configured `max_days` is nonnegative, the max-age check contributes no
issue for that node: the truncated day count is nonpositive and fails the `>`
comparison. (The check is a total function, so it never crashes.) -/
theorem max_age_future_no_issue (max_days now_timestamp : Int) (name : String)
    (dep : Node) (locked : Locked) (hl : dep.locked = some locked)
    (hfuture : now_timestamp - locked.last_modified < 0)
    (hmd : 0 ≤ max_days) :
    MaxAge.checkNode max_days now_timestamp name dep = none := by
  have h1 : 0 ≤ Int.tdiv (-(now_timestamp - locked.last_modified)) 86400 :=
    Int.tdiv_nonneg (by omega) (by decide)
  have h2 : Int.tdiv (-(now_timestamp - locked.last_modified)) 86400 =
      -Int.tdiv (now_timestamp - locked.last_modified) 86400 :=
    Int.neg_tdiv _ _
  have h3 : Int.tdiv (now_timestamp - locked.last_modified) 86400 ≤ max_days := by
    omega
  simp [MaxAge.checkNode, hl, not_lt.2 h3]

/-- Witness for the amended C7 at a concrete future-dated node. -/
theorem max_age_future_no_issue_witness :
    exFuture.locked = some { last_modified := 432000, nar_hash := "sha256-BBB",
                             owner := none, repo := none, rev := none,
                             node_type := "github" } ∧
    ((0 : Int) - 432000 < 0) ∧ ((0 : Int) ≤ 180) ∧
    MaxAge.checkNode 180 0 "nixpkgs" exFuture = none :=
  ⟨rfl, by decide, by decide,
   max_age_future_no_issue 180 0 "nixpkgs" exFuture
     { last_modified := 432000, nar_hash := "sha256-BBB", owner := none,
       repo := none, rev := none, node_type := "github" }
     rfl (by decide) (by decide)⟩

/-- Claim C8 counterexample: two runs over the same graph and configuration,
one day apart. The first run reports no finding, the second reports one, so
the set of (kind, node) findings is not the same across the two runs: crossing
a day boundary can create a finding, not merely change the day count inside a
message. -/
theorem runner_two_runs_differ :
    (check_flake_lock 172799 dayFlakeLock dayConfig).length = 0 ∧
    (check_flake_lock 172800 dayFlakeLock dayConfig).length = 1 := by
  decide

/-- Claim C8 (amended): if between the two sampled clock values no tracked
node's truncated day count changes (the wall clock does not cross a day
boundary relative to any tracked node's `last_modified`), the two runs of
`check_flake_lock` over the same graph and configuration return identical
issue sequences; in particular with the same clock value the runner is
deterministic. -/
theorem check_flake_lock_stable (now1 now2 : Int) (flake_lock : FlakeLock)
    (config : Config)
    (h : ∀ p ∈ nixpkgs_deps flake_lock.nodes,
      (p.2.locked.map fun locked => Int.tdiv (now1 - locked.last_modified) 86400) =
        (p.2.locked.map fun locked => Int.tdiv (now2 - locked.last_modified) 86400)) :
    check_flake_lock now1 flake_lock config =
      check_flake_lock now2 flake_lock config := by
  unfold check_flake_lock
  congr 1
  unfold MaxAge.run
  apply List.filterMap_congr
  intro p hp
  have hd := h p hp
  cases hlp : p.2.locked with
  | none => simp [MaxAge.checkNode, hlp]
  | some locked =>
    rw [hlp] at hd
    simp only [Option.map] at hd
    have hdd := Option.some.inj hd
    simp [MaxAge.checkNode, hlp, hdd]

/-- Witness for the amended C8: clock values 86405 and 86410 lie in the same
day of the only tracked node's life, and the two runs agree. -/
theorem check_flake_lock_stable_witness :
    (∀ p ∈ nixpkgs_deps dayFlakeLock.nodes,
      (p.2.locked.map fun locked => Int.tdiv (86405 - locked.last_modified) 86400) =
        (p.2.locked.map fun locked => Int.tdiv (86410 - locked.last_modified) 86400)) ∧
    check_flake_lock 86405 dayFlakeLock dayConfig =
      check_flake_lock 86410 dayFlakeLock dayConfig :=
  ⟨by decide, check_flake_lock_stable 86405 86410 dayFlakeLock dayConfig (by decide)⟩

/-- Claim C9: the runner never reads the graph's `root` field, its `version`
field, or any node's `inputs` field: two graphs whose node lists agree
entrywise on name, origin descriptor and locked descriptor produce identical
issue sequences under the same configuration and clock. -/
theorem check_flake_lock_noninterference (now_timestamp : Int) (config : Config)
    (nodes1 nodes2 : List (String × Node)) (root1 root2 : String)
    (v1 v2 : Nat) (h : List.Forall₂ NodeSameChecked nodes1 nodes2) :
    check_flake_lock now_timestamp
        { nodes := nodes1, root := root1, version := v1 } config =
      check_flake_lock now_timestamp
        { nodes := nodes2, root := root2, version := v2 } config := by
  have hsel : ∀ p q : String × Node, NodeSameChecked p q →
      starts_with p.1 "nixpkgs" = starts_with q.1 "nixpkgs" := by
    intro p q hpq
    rw [hpq.1]
  have hfil : List.Forall₂ NodeSameChecked (nixpkgs_deps nodes1) (nixpkgs_deps nodes2) :=
    forall2_filter_eq hsel h
  unfold check_flake_lock
  congr 1
  · unfold MaxAge.run
    apply forall2_filterMap_eq ?_ hfil
    intro p q hpq
    unfold MaxAge.checkNode
    rw [hpq.1, hpq.2.2]
  · unfold Refs.run
    apply forall2_filterMap_eq ?_ hfil
    intro p q hpq
    unfold Refs.checkNode
    rw [hpq.1, hpq.2.1]

/-- Witness for C9: changing `root`, `version` and a node's `inputs` leaves
the output unchanged. -/
theorem check_flake_lock_noninterference_witness :
    check_flake_lock 86405
        { nodes := [("nixpkgs", exOld)], root := "root", version := 7 } dayConfig =
      check_flake_lock 86405
        { nodes := [("nixpkgs", exOldInputs)], root := "other-root", version := 6 } dayConfig :=
  check_flake_lock_noninterference 86405 dayConfig _ _ _ _ _ _
    (List.Forall₂.cons ⟨rfl, rfl, rfl⟩ List.Forall₂.nil)

/-- Claim C10: each check emits at most one issue per tracked node, so each
check's output is no longer than the tracked-node list and the runner's output
is at most twice that length; every max-age issue has kind `Outdated` and
every reference issue has kind `Disallowed`. -/
theorem issue_bounds (now_timestamp : Int) (flake_lock : FlakeLock)
    (config : Config) :
    (MaxAge.run { max_days := config.max_days } now_timestamp flake_lock).length
        ≤ (nixpkgs_deps flake_lock.nodes).length ∧
    (Refs.run { allowed_refs := config.allowed_refs } flake_lock).length
        ≤ (nixpkgs_deps flake_lock.nodes).length ∧
    (check_flake_lock now_timestamp flake_lock config).length
        ≤ 2 * (nixpkgs_deps flake_lock.nodes).length ∧
    (∀ issue ∈ MaxAge.run { max_days := config.max_days } now_timestamp flake_lock,
      issue.kind = IssueKind.Outdated) ∧
    (∀ issue ∈ Refs.run { allowed_refs := config.allowed_refs } flake_lock,
      issue.kind = IssueKind.Disallowed) := by
  have h1 : (MaxAge.run { max_days := config.max_days } now_timestamp flake_lock).length
      ≤ (nixpkgs_deps flake_lock.nodes).length := List.length_filterMap_le _ _
  have h2 : (Refs.run { allowed_refs := config.allowed_refs } flake_lock).length
      ≤ (nixpkgs_deps flake_lock.nodes).length := List.length_filterMap_le _ _
  refine ⟨h1, h2, ?_, maxAge_run_kinds _ _ _, refs_run_kinds _ _⟩
  have h3 : (check_flake_lock now_timestamp flake_lock config).length =
      (MaxAge.run { max_days := config.max_days } now_timestamp flake_lock).length +
        (Refs.run { allowed_refs := config.allowed_refs } flake_lock).length :=
    List.length_append _ _
  omega

/-- Witness for C10: the total-length bound at a concrete run. -/
theorem issue_bounds_witness :
    (check_flake_lock (86400 * 200 + 5) exFlakeLock exConfig).length
      ≤ 2 * (nixpkgs_deps exFlakeLock.nodes).length :=
  (issue_bounds (86400 * 200 + 5) exFlakeLock exConfig).2.2.1

end FlakeChecker
